import Mathlib

/-!
Verification of `src/lambda/src/new_account_support_case.py`.

The Python handler is shallowly embedded: JSON-like events are an inductive
type, Python exceptions are an inductive error type, the two external services
(the organization service polled by `get_new_account_id` and the support
ticketing service called by `main`) are scripted response sequences passed in
explicitly, and every function returns its result together with the trace of
external calls (API requests and sleeps) it performed.
-/

namespace NewAccountSupportCase

/-- JSON-like values: the shape of inbound events and of service responses. -/
inductive Json where
  | str (s : String)
  | arr (elems : List Json)
  | obj (fields : List (String × Json))

/-- Python exceptions raised by the handler or by the libraries it calls.
`clientError` is `botocore.exceptions.ClientError`;
`accountCreationFailedBare` is a bare `raise AccountCreationFailedError`;
`accountCreationFailedFrom e` is `raise AccountCreationFailedError(err) from err`;
`supportCaseError` and `supportCaseInvalidArgumentsError` carry their message. -/
inductive PyErr where
  | keyError (key : String)
  | indexError
  | typeError
  | attributeError
  | valueError (msg : String)
  | clientError (msg : String)
  | accountCreationFailedBare
  | accountCreationFailedFrom (cause : PyErr)
  | supportCaseError (msg : String)
  | supportCaseInvalidArgumentsError (msg : String)
deriving DecidableEq, Repr

/-- Outcome of running a piece of the handler: normal return, a raised
exception, or exhaustion of the scripted org-service responses while the
polling loop is still waiting (the loop in the source has no bound, so with a
finite script this marks an invocation still in progress). -/
inductive RunResult (α : Type) where
  | ok (a : α)
  | exn (e : PyErr)
  | pending
deriving DecidableEq, Repr

/-- One external side effect: an org-service status query, a sleep, or a
support-service call.  Client construction makes no network call and is not
traced. -/
inductive ExtCall where
  | describeCreateAccountStatus
  | sleep (seconds : Nat)
  | createCase (subject : String) (severityCode : String) (categoryCode : String)
      (serviceCode : String) (communicationBody : String)
      (ccEmailAddresses : List String) (language : String) (issueType : String)
  | describeCases (caseIdList : List String)
deriving DecidableEq, Repr

/-- Association-list lookup used for Python `dict` subscripting and `.get`. -/
def lookupKey (k : String) : List (String × Json) → Option Json
  | [] => none
  | (k', v) :: rest => if k' = k then some v else lookupKey k rest

/-- Python `d[k]` on a dict: `KeyError` when the key is absent, `TypeError`
when the subscripted value is not a dict. -/
def Json.getKey : Json → String → Except PyErr Json
  | .obj fields, k =>
    match lookupKey k fields with
    | some v => .ok v
    | none => .error (.keyError k)
  | _, _ => .error .typeError

/-- Python `d.get(k, \x7b\x7d)`: absent keys default to an empty dict;
calling `.get` on a non-dict is an `AttributeError`. -/
def Json.getDefault : Json → String → Except PyErr Json
  | .obj fields, k => .ok ((lookupKey k fields).getD (Json.obj []))
  | _, _ => .error .attributeError

/-- Python `xs[i]` on a list: `IndexError` out of range, `TypeError` when the
value is not a list. -/
def Json.getIdx : Json → Nat → Except PyErr Json
  | .arr elems, i =>
    match elems[i]? with
    | some v => .ok v
    | none => .error .indexError
  | _, _ => .error .typeError

/-- Python truthiness of the JSON values that occur in responses:
empty string, empty list and empty dict are falsy. -/
def pyFalsy : Json → Bool
  | .str s => s = ""
  | .arr elems => elems.isEmpty
  | .obj fields => fields.isEmpty

/-- Python `str()` of a JSON value.  Every identifier in the modeled events
and responses is a string, so only the `.str` case is ever exercised; the
other cases stand in for the container renderings. -/
def pyStr : Json → String
  | .str s => s
  | .arr _ => "<list>"
  | .obj _ => "<dict>"

/-! ### Python `string.Template` substitution

`template_to_string` calls `Template(template).substitute(account_id=account_id)`.
The default `Template` pattern scans left to right for `$`; at each `$` it
matches, in order, the escape `$$`, a named placeholder `$ident`, a braced
placeholder `$\x7bident\x7d` (ident = `[_a-zA-Z][_a-zA-Z0-9]*`, longest match),
and otherwise the empty `invalid` group.  A recognized name other than
`account_id` raises `KeyError(name)`; an invalid `$` raises `ValueError`
(the line/column detail of the Python message is elided here). -/

/-- First character of a `string.Template` identifier. -/
def isIdentStart (c : Char) : Bool :=
  c = '_' || ('a' ≤ c && c ≤ 'z') || ('A' ≤ c && c ≤ 'Z')

/-- Subsequent character of a `string.Template` identifier. -/
def isIdentCont (c : Char) : Bool :=
  isIdentStart c || ('0' ≤ c && c ≤ '9')

/-- The `ValueError` raised by `Template._invalid`
(the line/column detail of the Python message is elided). -/
def invalidPlaceholder : PyErr := .valueError "Invalid placeholder in string"

/-- Scanner state while walking the template: between matches, just after a
`$`, inside a `$ident` (accumulated in reverse), just after `$\x7b`, or inside
a `$\x7bident` (accumulated in reverse). -/
inductive ScanState where
  | normal
  | afterDollar
  | named (rev : List Char)
  | bracedOpen
  | braced (rev : List Char)

/-- Resolve a completed placeholder name against the single mapping
`account_id ↦ acct`: the replacement text, or `KeyError(name)`. -/
def resolveName (acct : String) (rev : List Char) : Except PyErr (List Char) :=
  if String.mk rev.reverse = "account_id" then .ok acct.data
  else .error (.keyError (String.mk rev.reverse))

/-- Left-to-right scan of `Template.substitute` with the single mapping
`account_id ↦ acct`: emits literal characters, halves `$$`, replaces
`$account_id` and `$\x7baccount_id\x7d`, raises `KeyError` at the first other
placeholder and `ValueError` at the first invalid `$`. -/
def scanTemplate (acct : String) : ScanState → List Char → Except PyErr (List Char)
  | .normal, [] => .ok []
  | .normal, c :: cs =>
    if c = '$' then scanTemplate acct .afterDollar cs
    else (fun out => c :: out) <$> scanTemplate acct .normal cs
  | .afterDollar, [] => .error invalidPlaceholder
  | .afterDollar, c :: cs =>
    if c = '$' then (fun out => '$' :: out) <$> scanTemplate acct .normal cs
    else if c = '\x7b' then scanTemplate acct .bracedOpen cs
    else if isIdentStart c then scanTemplate acct (.named [c]) cs
    else .error invalidPlaceholder
  | .named rev, [] => resolveName acct rev
  | .named rev, c :: cs =>
    if isIdentCont c then scanTemplate acct (.named (c :: rev)) cs
    else
      match resolveName acct rev with
      | .error e => .error e
      | .ok repl =>
        if c = '$' then (fun out => repl ++ out) <$> scanTemplate acct .afterDollar cs
        else (fun out => repl ++ c :: out) <$> scanTemplate acct .normal cs
  | .bracedOpen, [] => .error invalidPlaceholder
  | .bracedOpen, c :: cs =>
    if isIdentStart c then scanTemplate acct (.braced [c]) cs
    else .error invalidPlaceholder
  | .braced _, [] => .error invalidPlaceholder
  | .braced rev, c :: cs =>
    if isIdentCont c then scanTemplate acct (.braced (c :: rev)) cs
    else if c = '\x7d' then
      match resolveName acct rev with
      | .error e => .error e
      | .ok repl => (fun out => repl ++ out) <$> scanTemplate acct .normal cs
    else .error invalidPlaceholder

/-- Model of `Template(template).substitute(account_id=acct)` on the underlying
character list. -/
def substChars (acct : String) (cs : List Char) : Except PyErr (List Char) :=
  scanTemplate acct .normal cs

/-- Model of `template_to_string(template, account_id)`: run the substitution; a
`KeyError` (unknown placeholder) is caught and re-raised as
`SupportCaseError(f"Unexpected variable \x7berr\x7d found in '\x7btemplate\x7d'")`,
where Python renders the caught single-argument `KeyError` as the quoted name.
Every other exception (in particular the `ValueError` for an invalid
placeholder) propagates unchanged. -/
def template_to_string (template account_id : String) : Except PyErr String :=
  match substChars account_id template.data with
  | .ok out => .ok (String.mk out)
  | .error (.keyError name) =>
    .error (.supportCaseError
      ("Unexpected variable \x27" ++ name ++ "\x27 found in \x27" ++ template ++ "\x27"))
  | .error e => .error e

/-! ### Account Resolver -/

/-- Python `str.upper()` on the ASCII state strings returned by the
organization service. -/
def pyUpper (s : String) : String := String.mk (s.data.map Char.toUpper)

/-- One well-formed `CreateAccountStatus` record of a
`describe_create_account_status` response (the SDK guarantees the
`CreateAccountStatus`/`State` shape; `AccountId` is read only on success). -/
structure CreateAccountStatus where
  state : String
  accountId : String
deriving DecidableEq, Repr

/-- One scripted org-service reply to a `describe_create_account_status`
call: either a transport `ClientError` (with its message) or a status. -/
abbrev OrgResp : Type := Except String CreateAccountStatus

/-- The `while True` polling loop of `get_new_account_id`, driven by the
scripted replies: query the status; return `AccountId` when the upper-cased
state is `SUCCEEDED`; raise bare `AccountCreationFailedError` on `FAILED`;
otherwise sleep 5 and repeat.  An exhausted script means the loop is still
waiting (`pending`). -/
def pollCreateAccountStatus : List OrgResp → RunResult Json × List ExtCall
  | [] => (.pending, [])
  | Except.error msg :: _ =>
    (.exn (.clientError msg), [.describeCreateAccountStatus])
  | Except.ok st :: rest =>
    if pyUpper st.state = "SUCCEEDED" then
      (.ok (.str st.accountId), [.describeCreateAccountStatus])
    else if pyUpper st.state = "FAILED" then
      (.exn .accountCreationFailedBare, [.describeCreateAccountStatus])
    else
      let (r, tr) := pollCreateAccountStatus rest
      (r, .describeCreateAccountStatus :: .sleep 5 :: tr)

/-- The token extraction at the top of `get_new_account_id`:
`event["detail"].get("responseElements", \x7b\x7d).get("createAccountStatus", \x7b\x7d)["id"]`. -/
def createAccountStatusId (event : Json) : Except PyErr Json := do
  let detail ← event.getKey "detail"
  let respElems ← detail.getDefault "responseElements"
  let cas ← respElems.getDefault "createAccountStatus"
  cas.getKey "id"

/-- Model of `get_new_account_id(event)`: extract the creation-request token, then poll
the organization service until a terminal state. -/
def get_new_account_id (event : Json) (org : List OrgResp) :
    RunResult Json × List ExtCall :=
  match createAccountStatusId event with
  | .error e => (.exn e, [])
  | .ok _ => pollCreateAccountStatus org

/-- Model of `get_invite_account_id(event)`:
`event["detail"]["requestParameters"]["target"]["id"]`. -/
def get_invite_account_id (event : Json) : Except PyErr Json := do
  let detail ← event.getKey "detail"
  let reqParams ← detail.getKey "requestParameters"
  let target ← reqParams.getKey "target"
  target.getKey "id"

/-- The `except (ClientError, AccountCreationFailedError)` clause of
`get_account_id`: those two exceptions are re-raised as
`AccountCreationFailedError(err)`; everything else propagates unchanged. -/
def wrapResolutionError : PyErr → PyErr
  | .clientError m => .accountCreationFailedFrom (.clientError m)
  | .accountCreationFailedBare => .accountCreationFailedFrom .accountCreationFailedBare
  | .accountCreationFailedFrom c =>
    .accountCreationFailedFrom (.accountCreationFailedFrom c)
  | e => e

/-- Model of `get_account_id(event)`: read `event["detail"]["eventName"]`, look the
name up in the strategy dict (an absent key raises a plain `KeyError`, which
the `except` clause does not list), run the strategy, and wrap
`ClientError`/`AccountCreationFailedError` raised by it. -/
def get_account_id (event : Json) (org : List OrgResp) :
    RunResult Json × List ExtCall :=
  match (do let detail ← event.getKey "detail"; detail.getKey "eventName") with
  | .error e => (.exn e, [])
  | .ok (.arr _) => (.exn .typeError, [])
  | .ok (.obj _) => (.exn .typeError, [])
  | .ok (.str eventName) =>
    if eventName = "CreateAccount" ∨ eventName = "CreateGovCloudAccount" then
      match get_new_account_id event org with
      | (.exn e, tr) => (.exn (wrapResolutionError e), tr)
      | r => r
    else if eventName = "InviteAccountToOrganization" then
      match get_invite_account_id event with
      | .error e => (.exn (wrapResolutionError e), [])
      | .ok v => (.ok v, [])
    else
      (.exn (.keyError eventName), [])

/-! ### Case Opener -/

/-- Scripted support-service replies: the response to `create_case` and the
response to `describe_cases`, each either a transport `ClientError` message or
a JSON body. -/
structure SupportService where
  createCaseResp : Except String Json
  describeCasesResp : Except String Json

/-- The `except KeyError` clause around
`display_id = case["cases"][0]["displayId"]`: a `KeyError` is re-raised as
`SupportCaseError(key_err)` (whose message is the quoted key); `IndexError`
and `TypeError` are not listed and propagate unchanged. -/
def displayIdOutcome (caseResp : Json) : Except PyErr Json :=
  match (do
      let cases ← caseResp.getKey "cases"
      let first ← cases.getIdx 0
      first.getKey "displayId") with
  | .ok d => .ok d
  | .error (.keyError k) => .error (.supportCaseError ("\x27" ++ k ++ "\x27"))
  | .error e => .error e

/-- Model of `main(account_id, cc_list, subject, communication_body)`: substitute the
templates, call `create_case` with the fixed classification constants and
`ccEmailAddresses=[cc_list]`, reject an empty `caseId`, call `describe_cases`
on `[case_id]`, extract the display id, return 0.  `ClientError` from either
service call is wrapped in `SupportCaseError`. -/
def main (account_id cc_list subject communication_body : String)
    (svc : SupportService) : Except PyErr Nat × List ExtCall :=
  match template_to_string subject account_id with
  | .error e => (.error e, [])
  | .ok subj =>
  match template_to_string communication_body account_id with
  | .error e => (.error e, [])
  | .ok body =>
  let callCreate : ExtCall :=
    .createCase subj "low" "other-account-issues" "customer-account" body
      [cc_list] "en" "customer-service"
  match svc.createCaseResp with
  | .error msg => (.error (.supportCaseError msg), [callCreate])
  | .ok response =>
    match response.getKey "caseId" with
    | .error e => (.error e, [callCreate])
    | .ok caseId =>
      if pyFalsy caseId then
        (.error (.supportCaseError "Missing case_id in create_case() response"),
          [callCreate])
      else
        let callDescribe : ExtCall := .describeCases [pyStr caseId]
        match svc.describeCasesResp with
        | .error msg =>
          (.error (.supportCaseError msg), [callCreate, callDescribe])
        | .ok caseResp =>
          match displayIdOutcome caseResp with
          | .error e => (.error e, [callCreate, callDescribe])
          | .ok _ => (.ok 0, [callCreate, callDescribe])

/-- Python truthiness of an optional environment variable: unset (`None`) and
the empty string are falsy. -/
def nullEnvvar : Option String → Bool
  | none => true
  | some s => s = ""

/-- Message raised when `CC_LIST` is missing. -/
def ccListMsg : String :=
  "Environment variable \x27CC_LIST\x27 must provide at least one " ++
    "email address to CC on this case."

/-- Message raised when `SUBJECT` is missing. -/
def subjectMsg : String :=
  "Environment variable \x27SUBJECT\x27 must provide the \x27Subject\x27 text " ++
    "for the communication sent to support."

/-- Message raised when `COMMUNICATION_BODY` is missing. -/
def communicationBodyMsg : String :=
  "Environment variable \x27COMMUNICATION_BODY\x27 must provide the " ++
    "body of the communication sent to support."

/-- Model of `check_for_null_envvars(cc_list, communication_body, subject)`: raise
`SupportCaseInvalidArgumentsError` with a variable-specific message for the
first falsy one of `cc_list`, `subject`, `communication_body` (in that
order). -/
def check_for_null_envvars (cc_list communication_body subject : Option String) :
    Except PyErr Unit :=
  if nullEnvvar cc_list then
    .error (.supportCaseInvalidArgumentsError ccListMsg)
  else if nullEnvvar subject then
    .error (.supportCaseInvalidArgumentsError subjectMsg)
  else if nullEnvvar communication_body then
    .error (.supportCaseInvalidArgumentsError communicationBodyMsg)
  else
    .ok ()

/-- The three environment variables read by `lambda_handler`. -/
structure LambdaEnv where
  cc_list : Option String
  communication_body : Option String
  subject : Option String

/-- Model of `lambda_handler(event, context)`: read the environment, check it, resolve
the account id, then open the case.  All exceptions are logged and re-raised
unchanged, and the handler returns `None` (modelled as `Unit`) on success. -/
def lambda_handler (event : Json) (env : LambdaEnv) (org : List OrgResp)
    (svc : SupportService) : RunResult Unit × List ExtCall :=
  match check_for_null_envvars env.cc_list env.communication_body env.subject with
  | .error e => (.exn e, [])
  | .ok _ =>
    match get_account_id event org with
    | (.exn e, tr) => (.exn e, tr)
    | (.pending, tr) => (.pending, tr)
    | (.ok accountId, tr) =>
      match main (pyStr accountId) (env.cc_list.getD "") (env.subject.getD "")
          (env.communication_body.getD "") svc with
      | (.error e, tr2) => (.exn e, tr ++ tr2)
      | (.ok _, tr2) => (.ok (), tr ++ tr2)

/-! ### Helper predicates and fixtures used by the verification -/

instance {ε α : Type} [DecidableEq ε] [DecidableEq α] : DecidableEq (Except ε α) :=
  fun a b =>
    match a, b with
    | .ok x, .ok y =>
      if h : x = y then .isTrue (by rw [h]) else .isFalse (by intro hc; cases hc; exact h rfl)
    | .error x, .error y =>
      if h : x = y then .isTrue (by rw [h]) else .isFalse (by intro hc; cases hc; exact h rfl)
    | .ok _, .error _ => .isFalse (by intro hc; cases hc)
    | .error _, .ok _ => .isFalse (by intro hc; cases hc)

/-- True when a resolution outcome is a raised `AccountCreationFailedError`
(the exception class the spec calls `AccountResolutionError`). -/
def isAccountCreationFailedOutcome : RunResult Json → Bool
  | .exn .accountCreationFailedBare => true
  | .exn (.accountCreationFailedFrom _) => true
  | _ => false

/-- True when a substitution outcome is a raised `SupportCaseError`
(the exception class the spec calls `TemplateError`). -/
def isTemplateErrorOutcome : Except PyErr String → Bool
  | .error (.supportCaseError _) => true
  | _ => false

/-- True when a case-opening outcome is a raised `SupportCaseError`
(the exception class the spec calls `CaseCreationError`). -/
def isCaseCreationErrorOutcome : Except PyErr Nat → Bool
  | .error (.supportCaseError _) => true
  | _ => false

/-- True when a resolution outcome returned an account identifier. -/
def resolutionSucceeded : RunResult Json → Bool
  | .ok _ => true
  | _ => false

/-- True for a `create_case` request in a trace. -/
def isCreateCaseCall : ExtCall → Bool
  | .createCase .. => true
  | _ => false

/-- True when a trace contains a `create_case` request. -/
def hasCreateCaseCall (tr : List ExtCall) : Bool := tr.any isCreateCaseCall

/-- A status whose upper-cased state is neither terminal value: the polling
loop sleeps and retries on it. -/
def inProgress (st : CreateAccountStatus) : Bool :=
  !(pyUpper st.state = "SUCCEEDED") && !(pyUpper st.state = "FAILED")

/-- Trace of a polling run that performs `k` in-progress queries (each
followed by the fixed 5-second sleep) and then one terminal query. -/
def pollTrace (k : Nat) : List ExtCall :=
  (List.replicate k [ExtCall.describeCreateAccountStatus, ExtCall.sleep 5]).flatten ++
    [ExtCall.describeCreateAccountStatus]

/-- Fixture: detail of an `InviteAccountToOrganization` event. -/
def detailInvite : Json := .obj [
  ("eventName", .str "InviteAccountToOrganization"),
  ("requestParameters", .obj [("target", .obj [("id", .str "111111111111")])])]

/-- Fixture: an `InviteAccountToOrganization` event. -/
def evtInvite : Json := .obj [("detail", detailInvite)]

/-- Fixture: detail of a `CreateAccount` event in the current payload shape,
carrying the creation-request token under
`responseElements.createAccountStatus.id`. -/
def detailCreate : Json := .obj [
  ("eventName", .str "CreateAccount"),
  ("responseElements", .obj [("createAccountStatus", .obj [("id", .str "car-123")])])]

/-- Fixture: a `CreateAccount` event in the current payload shape. -/
def evtCreate : Json := .obj [("detail", detailCreate)]

/-- Fixture: a `CreateAccount` event in the legacy payload shape, carrying
the final account id under `serviceEventDetails.createAccountStatus.accountId`
and no `responseElements`. -/
def evtLegacyShape : Json := .obj [("detail", .obj [
  ("eventName", .str "CreateAccount"),
  ("serviceEventDetails", .obj [("createAccountStatus", .obj [("accountId", .str "333333333333")])])])]

/-- Fixture: detail of the legacy event exactly as the repository test
fixture builds it, with the legacy discriminator `CreateAccountResult`. -/
def detailLegacyResult : Json := .obj [
  ("eventName", .str "CreateAccountResult"),
  ("eventSource", .str "organizations.amazonaws.com"),
  ("serviceEventDetails", .obj [("createAccountStatus", .obj [("accountId", .str "333333333333")])])]

/-- Fixture: the legacy event as built by the repository test fixture. -/
def evtLegacyResult : Json := .obj [("detail", detailLegacyResult)]

/-- Fixture: support service replying successfully to both calls. -/
def svcGood : SupportService :=
  ⟨.ok (.obj [("caseId", .str "case-1")]),
   .ok (.obj [("cases", .arr [.obj [("displayId", .str "D-9")]])])⟩

/-- Fixture: support service whose creation response has no `caseId` key. -/
def svcNoCaseIdKey : SupportService :=
  ⟨.ok (.obj [("status", .str "ok")]), .ok (.obj [])⟩

/-- Fixture: support service whose creation response has an empty `caseId`. -/
def svcEmptyCaseId : SupportService :=
  ⟨.ok (.obj [("caseId", .str "")]), .ok (.obj [])⟩

/-- Fixture: support service whose describe response lacks the `cases` key. -/
def svcNoCasesKey : SupportService :=
  ⟨.ok (.obj [("caseId", .str "case-1")]), .ok (.obj [("foo", .str "bar")])⟩

/-- Fixture: support service whose describe response has an empty `cases`
list. -/
def svcEmptyCasesList : SupportService :=
  ⟨.ok (.obj [("caseId", .str "case-1")]), .ok (.obj [("cases", .arr [])])⟩

/-- Fixture: support service whose first described case lacks the
`displayId` key. -/
def svcNoDisplayId : SupportService :=
  ⟨.ok (.obj [("caseId", .str "case-1")]),
   .ok (.obj [("cases", .arr [.obj [("status", .str "opened")]])])⟩

/-! ### Shared lemmas -/

/-- Mapping over an `Except` yields an error exactly when the argument is
that error. -/
theorem except_map_error_iff {ε α β : Type} (f : α → β) (x : Except ε α) (e : ε) :
    (f <$> x) = .error e ↔ x = .error e := by
  cases x <;> simp [Functor.map, Except.map]

/-- Characterization of the `KeyError` raised by the placeholder resolver. -/
theorem resolveName_error_name (acct : String) (rev : List Char) (n : String) :
    resolveName acct rev = .error (.keyError n) ↔
      (String.mk rev.reverse ≠ "account_id" ∧ n = String.mk rev.reverse) := by
  unfold resolveName
  split
  · next heq => simp [heq]

  · next hne =>
    constructor
    · intro h
      simp only [Except.error.injEq, PyErr.keyError.injEq] at h
      exact ⟨hne, h.symm⟩
    · intro ⟨_, hn⟩
      rw [hn]

/-- The template scan never raises `KeyError("account_id")`: a `KeyError`
always names an unknown placeholder. -/
theorem scanTemplate_keyError_ne (acct n : String) (st : ScanState) (cs : List Char)
    (h : scanTemplate acct st cs = .error (.keyError n)) : n ≠ "account_id" := by
  induction st, cs using scanTemplate.induct acct with
  | _ =>
    try rw [scanTemplate] at h
    simp_all [invalidPlaceholder, except_map_error_iff, resolveName_error_name]

/-- Scanning a template without the `$` delimiter reproduces it verbatim. -/
theorem scanTemplate_noDollar (acct : String) (cs : List Char)
    (h : cs.all (fun c => !(c = '$')) = true) :
    scanTemplate acct .normal cs = .ok cs := by
  induction cs with
  | nil => rfl
  | cons c cs ih =>
    simp only [List.all_cons, Bool.and_eq_true, Bool.not_eq_true'] at h
    rw [scanTemplate, if_neg (of_decide_eq_false h.1), ih h.2]
    rfl

/-- Unfolding for one in-progress polling step. -/
theorem poll_cons_inProgress (st : CreateAccountStatus) (rest : List OrgResp)
    (h : inProgress st = true) :
    pollCreateAccountStatus (Except.ok st :: rest) =
      ((pollCreateAccountStatus rest).1,
        .describeCreateAccountStatus :: .sleep 5 :: (pollCreateAccountStatus rest).2) := by
  simp only [inProgress, Bool.and_eq_true, Bool.not_eq_true'] at h
  rw [pollCreateAccountStatus, if_neg (of_decide_eq_false h.1),
    if_neg (of_decide_eq_false h.2)]

/-- Polling through in-progress replies and then a `SUCCEEDED` reply returns
the embedded account id, with one query per reply and a 5-second sleep after
each non-terminal one. -/
theorem poll_succeeds (pre : List CreateAccountStatus) (final : CreateAccountStatus)
    (hpre : pre.all inProgress = true) (hfin : pyUpper final.state = "SUCCEEDED") :
    pollCreateAccountStatus (pre.map Except.ok ++ [Except.ok final]) =
      (.ok (.str final.accountId), pollTrace pre.length) := by
  induction pre with
  | nil =>
    simp only [List.map_nil, List.nil_append]
    rw [pollCreateAccountStatus, if_pos hfin]
    simp [pollTrace]
  | cons st rest ih =>
    simp only [List.all_cons, Bool.and_eq_true] at hpre
    rw [List.map_cons, List.cons_append, poll_cons_inProgress st _ hpre.1,
      ih hpre.2]
    simp [pollTrace, List.replicate_succ]

/-- Polling through in-progress replies and then a `FAILED` reply raises the
bare `AccountCreationFailedError`. -/
theorem poll_fails (pre : List CreateAccountStatus) (final : CreateAccountStatus)
    (hpre : pre.all inProgress = true) (hfin : pyUpper final.state = "FAILED") :
    pollCreateAccountStatus (pre.map Except.ok ++ [Except.ok final]) =
      (.exn .accountCreationFailedBare, pollTrace pre.length) := by
  induction pre with
  | nil =>
    simp only [List.map_nil, List.nil_append]
    rw [pollCreateAccountStatus, if_neg (by simp [hfin]), if_pos hfin]
    simp [pollTrace]
  | cons st rest ih =>
    simp only [List.all_cons, Bool.and_eq_true] at hpre
    rw [List.map_cons, List.cons_append, poll_cons_inProgress st _ hpre.1,
      ih hpre.2]
    simp [pollTrace, List.replicate_succ]

/-- Polling through in-progress replies and then a transport error raises the
`ClientError`. -/
theorem poll_clientError (pre : List CreateAccountStatus) (msg : String)
    (hpre : pre.all inProgress = true) :
    pollCreateAccountStatus (pre.map Except.ok ++ [Except.error msg]) =
      (.exn (.clientError msg), pollTrace pre.length) := by
  induction pre with
  | nil => simp [pollCreateAccountStatus, pollTrace]
  | cons st rest ih =>
    simp only [List.all_cons, Bool.and_eq_true] at hpre
    rw [List.map_cons, List.cons_append, poll_cons_inProgress st _ hpre.1,
      ih hpre.2]
    simp [pollTrace, List.replicate_succ]

/-- The polling loop issues only status queries and sleeps. -/
theorem poll_no_createCase (org : List OrgResp) :
    hasCreateCaseCall (pollCreateAccountStatus org).2 = false := by
  induction org with
  | nil => rfl
  | cons r rest ih =>
    cases r with
    | error msg => rfl
    | ok st =>
      rw [pollCreateAccountStatus]
      split
      · rfl
      · split
        · rfl
        · simpa [hasCreateCaseCall, isCreateCaseCall] using ih

/-- A successful poll found a `SUCCEEDED` reply in the script and returned
the account id embedded in it. -/
theorem poll_ok_succeeded (org : List OrgResp) (j : Json)
    (h : (pollCreateAccountStatus org).1 = .ok j) :
    ∃ (k : Nat) (st : CreateAccountStatus), org[k]? = some (Except.ok st) ∧
      pyUpper st.state = "SUCCEEDED" ∧ j = .str st.accountId := by
  induction org with
  | nil => simp [pollCreateAccountStatus] at h
  | cons r rest ih =>
    cases r with
    | error msg => simp [pollCreateAccountStatus] at h
    | ok st =>
      by_cases hs : pyUpper st.state = "SUCCEEDED"
      · rw [pollCreateAccountStatus, if_pos hs] at h
        refine ⟨0, st, by simp, hs, ?_⟩
        simpa using h.symm
      · by_cases hf : pyUpper st.state = "FAILED"
        · rw [pollCreateAccountStatus, if_neg hs, if_pos hf] at h
          simp at h
        · have hip : inProgress st = true := by
            simp [inProgress, hs, hf]
          rw [poll_cons_inProgress st rest hip] at h
          obtain ⟨k, st', hk, hs', hj⟩ := ih h
          exact ⟨k + 1, st', by simpa using hk, hs', hj⟩

/-- Bind on a successful `Except` applies the continuation. -/
theorem except_bind_ok {ε α β : Type} (a : α) (f : α → Except ε β) :
    (Except.ok (ε := ε) a >>= f) = f a := rfl

/-- On an async-creation event whose token extraction succeeds, the resolver
is the polling loop with `ClientError` and `AccountCreationFailedError`
wrapped by the `except` clause of `get_account_id`. -/
theorem get_account_id_async (event detail tok : Json) (nm : String)
    (org : List OrgResp)
    (hd : event.getKey "detail" = .ok detail)
    (hn : detail.getKey "eventName" = .ok (.str nm))
    (hnm : nm = "CreateAccount" ∨ nm = "CreateGovCloudAccount")
    (htok : createAccountStatusId event = .ok tok) :
    get_account_id event org =
      match pollCreateAccountStatus org with
      | (.exn e, tr) => (.exn (wrapResolutionError e), tr)
      | r => r := by
  have hname : (do let d ← event.getKey "detail"; d.getKey "eventName") =
      Except.ok (Json.str nm) := by rw [hd, except_bind_ok, hn]
  have hnew : get_new_account_id event org = pollCreateAccountStatus org := by
    unfold get_new_account_id
    rw [htok]
  unfold get_account_id
  rw [hname]
  dsimp only
  rcases hnm with h1 | h1 <;> subst h1
  · rw [if_pos (Or.inl rfl), hnew]
  · rw [if_pos (Or.inr rfl), hnew]

/-- The resolver trace is either empty or the polling trace. -/
theorem get_account_id_trace_cases (event : Json) (org : List OrgResp) :
    (get_account_id event org).2 = [] ∨
      (get_account_id event org).2 = (pollCreateAccountStatus org).2 := by
  unfold get_account_id
  split
  · left; rfl
  · left; rfl
  · left; rfl
  · split
    · unfold get_new_account_id
      cases htok : createAccountStatusId event with
      | error e => left; rfl
      | ok tokv =>
        right
        rcases hp : pollCreateAccountStatus org with ⟨r, tr⟩
        cases r <;> rfl
    · split
      · split
        · left; rfl
        · left; rfl
      · left; rfl

/-- The resolver never issues a `create_case` request. -/
theorem get_account_id_no_createCase (event : Json) (org : List OrgResp) :
    hasCreateCaseCall (get_account_id event org).2 = false := by
  rcases get_account_id_trace_cases event org with h | h <;> rw [h]
  · rfl
  · exact poll_no_createCase org

/-- The polling trace of `k` in-progress queries plus the terminal one
contains exactly `k + 1` status queries. -/
theorem pollTrace_count (k : Nat) :
    (pollTrace k).count ExtCall.describeCreateAccountStatus = k + 1 := by
  induction k with
  | zero => rfl
  | succ k ih =>
    have hstep : pollTrace (k + 1) =
        [ExtCall.describeCreateAccountStatus, ExtCall.sleep 5] ++ pollTrace k := by
      simp [pollTrace, List.replicate_succ]
    rw [hstep, List.count_append, ih]
    simp [List.count_cons]
    omega

/-! ### Claims -/

/-- C1 counterexample: on the concrete event with the unrecognized
discriminator `CreateAccountResult` (the repository test fixture event),
`get_account_id` raises the plain `KeyError` of the strategy-dict lookup, not
`AccountCreationFailedError` (the class the spec calls
`AccountResolutionError`); it does perform zero external calls. -/
theorem unrecognized_event_not_wrapped_cex :
    get_account_id evtLegacyResult [] = (.exn (.keyError "CreateAccountResult"), []) ∧
    isAccountCreationFailedOutcome (get_account_id evtLegacyResult []).1 = false :=
  ⟨rfl, rfl⟩

/-- C1 (amended): for every inbound event whose `detail.eventName` is a
string outside the three recognized variants, `get_account_id` fails with the
uncaught `KeyError` of the strategy-dict lookup, naming the discriminator
(not with `AccountCreationFailedError`), and performs zero external calls. -/
theorem unrecognized_event_keyError_no_calls (event detail : Json) (nm : String)
    (org : List OrgResp)
    (hd : event.getKey "detail" = .ok detail)
    (hn : detail.getKey "eventName" = .ok (.str nm))
    (h1 : nm ≠ "CreateAccount") (h2 : nm ≠ "CreateGovCloudAccount")
    (h3 : nm ≠ "InviteAccountToOrganization") :
    get_account_id event org = (.exn (.keyError nm), []) := by
  have hname : (do let d ← event.getKey "detail"; d.getKey "eventName") =
      Except.ok (Json.str nm) := by rw [hd, except_bind_ok, hn]
  unfold get_account_id
  rw [hname]
  dsimp only
  rw [if_neg ?hne, if_neg h3]
  case hne =>
    intro hor
    rcases hor with h | h
    · exact h1 h
    · exact h2 h

/-- C1 witness: the amended claim applied to the fixture event. -/
theorem unrecognized_event_keyError_no_calls_witness :
    get_account_id evtLegacyResult [] = (.exn (.keyError "CreateAccountResult"), []) :=
  unrecognized_event_keyError_no_calls evtLegacyResult detailLegacyResult
    "CreateAccountResult" [] rfl rfl (by decide) (by decide) (by decide)

/-- C2: for every async-creation event whose token extraction succeeds and
whose scripted status replies are in-progress ones followed by a `SUCCEEDED`
reply, `get_account_id` returns exactly the account id embedded in the
`SUCCEEDED` reply and its trace is one status query per reply — so exactly
one terminal query — with the fixed 5-second sleep between consecutive
queries; in particular the number of status queries is the number of
replies. -/
theorem resolve_async_success (event detail tok : Json) (nm : String)
    (pre : List CreateAccountStatus) (final : CreateAccountStatus)
    (hd : event.getKey "detail" = .ok detail)
    (hn : detail.getKey "eventName" = .ok (.str nm))
    (hnm : nm = "CreateAccount" ∨ nm = "CreateGovCloudAccount")
    (htok : createAccountStatusId event = .ok tok)
    (hpre : pre.all inProgress = true)
    (hfin : pyUpper final.state = "SUCCEEDED") :
    get_account_id event (pre.map Except.ok ++ [Except.ok final]) =
      (.ok (.str final.accountId), pollTrace pre.length) ∧
    (pollTrace pre.length).count ExtCall.describeCreateAccountStatus =
      pre.length + 1 := by
  constructor
  · rw [get_account_id_async event detail tok nm _ hd hn hnm htok,
      poll_succeeds pre final hpre hfin]
  · exact pollTrace_count pre.length

/-- C2 witness: two in-progress replies then `SUCCEEDED` on the fixture
`CreateAccount` event: three status queries, two sleeps, id returned. -/
theorem resolve_async_success_witness :
    get_account_id evtCreate
      ([⟨"PENDING", ""⟩, ⟨"IN_PROGRESS", ""⟩].map Except.ok ++
        [Except.ok ⟨"SUCCEEDED", "222222222222"⟩]) =
      (.ok (.str "222222222222"), pollTrace 2) ∧
    (pollTrace 2).count ExtCall.describeCreateAccountStatus = 2 + 1 :=
  resolve_async_success evtCreate detailCreate (.str "car-123") "CreateAccount"
    [⟨"PENDING", ""⟩, ⟨"IN_PROGRESS", ""⟩] ⟨"SUCCEEDED", "222222222222"⟩
    rfl rfl (Or.inl rfl) rfl rfl rfl

/-- C3: for every async-creation event whose token extraction succeeds and
every in-progress prefix of scripted replies, a `FAILED` reply or a transport
error makes `get_account_id` fail with `AccountCreationFailedError` (the
class the spec calls `AccountResolutionError`): it never returns an account
id, and the raw `ClientError` is re-raised wrapped, never unwrapped. -/
theorem resolve_async_failure (event detail tok : Json) (nm : String)
    (pre : List CreateAccountStatus)
    (hd : event.getKey "detail" = .ok detail)
    (hn : detail.getKey "eventName" = .ok (.str nm))
    (hnm : nm = "CreateAccount" ∨ nm = "CreateGovCloudAccount")
    (htok : createAccountStatusId event = .ok tok)
    (hpre : pre.all inProgress = true) :
    (∀ final : CreateAccountStatus, pyUpper final.state = "FAILED" →
      get_account_id event (pre.map Except.ok ++ [Except.ok final]) =
        (.exn (.accountCreationFailedFrom .accountCreationFailedBare),
          pollTrace pre.length)) ∧
    (∀ msg : String,
      get_account_id event (pre.map Except.ok ++ [Except.error msg]) =
        (.exn (.accountCreationFailedFrom (.clientError msg)),
          pollTrace pre.length)) := by
  constructor
  · intro final hfin
    rw [get_account_id_async event detail tok nm _ hd hn hnm htok,
      poll_fails pre final hpre hfin]
    rfl
  · intro msg
    rw [get_account_id_async event detail tok nm _ hd hn hnm htok,
      poll_clientError pre msg hpre]
    rfl

/-- C3 witness: one pending reply then `FAILED`, and one pending reply then a
transport error, on the fixture `CreateAccount` event. -/
theorem resolve_async_failure_witness :
    get_account_id evtCreate
      ([⟨"PENDING", ""⟩].map Except.ok ++ [Except.ok ⟨"FAILED", ""⟩]) =
      (.exn (.accountCreationFailedFrom .accountCreationFailedBare), pollTrace 1) ∧
    get_account_id evtCreate
      ([⟨"PENDING", ""⟩].map Except.ok ++ [Except.error "ThrottlingException"]) =
      (.exn (.accountCreationFailedFrom (.clientError "ThrottlingException")),
        pollTrace 1) :=
  ⟨(resolve_async_failure evtCreate detailCreate (.str "car-123") "CreateAccount"
      [⟨"PENDING", ""⟩] rfl rfl (Or.inl rfl) rfl rfl).1 ⟨"FAILED", ""⟩ rfl,
   (resolve_async_failure evtCreate detailCreate (.str "car-123") "CreateAccount"
      [⟨"PENDING", ""⟩] rfl rfl (Or.inl rfl) rfl rfl).2 "ThrottlingException"⟩

/-- C4: the resolver does not support the legacy payload shape.  On a
`CreateAccount` event carrying the final account id only under
`serviceEventDetails.createAccountStatus` it raises `KeyError("id")` from the
token extraction instead of resolving the id, and on the legacy-discriminator
event built by the repository test fixture (`CreateAccountResult`) it raises
`KeyError("CreateAccountResult")` from the dispatch — both with zero external
calls and no account id returned. -/
theorem legacy_shape_not_supported :
    get_account_id evtLegacyShape [] = (.exn (.keyError "id"), []) ∧
    get_account_id evtLegacyResult [] =
      (.exn (.keyError "CreateAccountResult"), []) :=
  ⟨rfl, rfl⟩

/-- C5 counterexample: the template `"$ $unknown"` references the unknown
placeholder `unknown`, yet `template_to_string` fails with the uncaught
`ValueError` of the invalid lone `$`, not with `SupportCaseError` (the class
the spec calls `TemplateError`). -/
theorem template_invalid_dollar_cex :
    template_to_string "$ $unknown" "123" = .error invalidPlaceholder ∧
    isTemplateErrorOutcome (template_to_string "$ $unknown" "123") = false :=
  ⟨rfl, rfl⟩

/-- C5 (amended): whenever the left-to-right substitution scan hits an
unknown placeholder (before any invalid `$` sequence), the placeholder is not
`account_id` and `template_to_string` fails with `SupportCaseError` whose
message quotes that placeholder name and the template; a template whose scan
hits an invalid `$` first instead fails with an unwrapped `ValueError`. -/
theorem template_unknown_placeholder (template acct nm : String)
    (h : substChars acct template.data = .error (.keyError nm)) :
    nm ≠ "account_id" ∧
    template_to_string template acct =
      .error (.supportCaseError
        ("Unexpected variable \x27" ++ nm ++ "\x27 found in \x27" ++ template ++ "\x27")) := by
  refine ⟨scanTemplate_keyError_ne acct nm .normal template.data h, ?_⟩
  unfold template_to_string
  rw [show substChars acct template.data =
    .error (.keyError nm) from h]

/-- C5 witness: the spec example `"Subject with $unknown_var"`. -/
theorem template_unknown_placeholder_witness :
    "unknown_var" ≠ "account_id" ∧
    template_to_string "Subject with $unknown_var" "123" =
      .error (.supportCaseError
        "Unexpected variable \x27unknown_var\x27 found in \x27Subject with $unknown_var\x27") :=
  template_unknown_placeholder "Subject with $unknown_var" "123" "unknown_var" rfl

/-- C6 counterexample: the template `"$"` contains no placeholder, yet
substitution does not return it unchanged — it raises `ValueError`. -/
theorem template_no_placeholder_cex :
    template_to_string "$" "123" = .error invalidPlaceholder ∧
    template_to_string "$" "123" ≠ .ok "$" :=
  ⟨rfl, by decide⟩

/-- C6 (amended): substitution is the identity on every template containing
no `$` delimiter at all (rather than merely no placeholder: the escape `$$`
is halved and a lone `$` raises `ValueError`), and it substitutes
`account_id` verbatim: `"Add $\x7baccount_id\x7d"` with id `"123"` yields
`"Add 123"`. -/
theorem template_identity_no_dollar (template acct : String)
    (h : template.data.all (fun c => !(c = '$')) = true) :
    template_to_string template acct = .ok template ∧
    template_to_string "Add $\x7baccount_id\x7d" "123" = .ok "Add 123" := by
  refine ⟨?_, rfl⟩
  unfold template_to_string substChars
  rw [scanTemplate_noDollar acct template.data h]

/-- C6 witness: a concrete dollar-free template is returned unchanged. -/
theorem template_identity_no_dollar_witness :
    template_to_string "no placeholders here" "123" = .ok "no placeholders here" ∧
    template_to_string "Add $\x7baccount_id\x7d" "123" = .ok "Add 123" :=
  template_identity_no_dollar "no placeholders here" "123" rfl

/-- Bind on a failed `Except` short-circuits. -/
theorem except_bind_error {ε α β : Type} (e : ε) (f : α → Except ε β) :
    (Except.error (α := α) e >>= f) = .error e := rfl

/-- C7 counterexample: two creation/describe responses on which the claim as
stated fails.  A creation response lacking the `caseId` key makes `main` fail
with the uncaught `KeyError("caseId")` of the subscript, and a describe
response with an empty `cases` list (so the display identifier cannot be
extracted from the first case) makes it fail with the uncaught `IndexError`
of `[0]` — in neither case with `SupportCaseError` (the class the spec calls
`CaseCreationError`). -/
theorem main_malformed_response_cex :
    (main "1" "cc" "s" "b" svcNoCaseIdKey).1 = .error (.keyError "caseId") ∧
    isCaseCreationErrorOutcome (main "1" "cc" "s" "b" svcNoCaseIdKey).1 = false ∧
    (main "1" "cc" "s" "b" svcEmptyCasesList).1 = .error .indexError ∧
    isCaseCreationErrorOutcome (main "1" "cc" "s" "b" svcEmptyCasesList).1 = false :=
  ⟨rfl, rfl, rfl, rfl⟩

/-- C7 (amended): a creation response whose `caseId` value is present but
empty makes `main` fail with `SupportCaseError("Missing case_id in
create_case() response")`, and a describe-cases response whose `cases` key or
whose first case's `displayId` key is absent makes it fail with
`SupportCaseError` quoting the missing key; but a creation response with no
`caseId` key at all fails with an unwrapped `KeyError`, and an empty `cases`
list fails with an unwrapped `IndexError`.  None of these is a silent
no-op. -/
theorem main_response_validation (aid cc : String) (svc : SupportService) :
    (∀ resp caseId : Json, svc.createCaseResp = .ok resp →
      resp.getKey "caseId" = .ok caseId → pyFalsy caseId = true →
      (main aid cc "s" "b" svc).1 =
        .error (.supportCaseError "Missing case_id in create_case() response")) ∧
    (∀ resp caseId dresp : Json, svc.createCaseResp = .ok resp →
      resp.getKey "caseId" = .ok caseId → pyFalsy caseId = false →
      svc.describeCasesResp = .ok dresp →
      dresp.getKey "cases" = .error (.keyError "cases") →
      (main aid cc "s" "b" svc).1 = .error (.supportCaseError "\x27cases\x27")) ∧
    (∀ resp caseId dresp cs c0 : Json, svc.createCaseResp = .ok resp →
      resp.getKey "caseId" = .ok caseId → pyFalsy caseId = false →
      svc.describeCasesResp = .ok dresp →
      dresp.getKey "cases" = .ok cs → cs.getIdx 0 = .ok c0 →
      c0.getKey "displayId" = .error (.keyError "displayId") →
      (main aid cc "s" "b" svc).1 = .error (.supportCaseError "\x27displayId\x27")) ∧
    (∀ resp : Json, svc.createCaseResp = .ok resp →
      resp.getKey "caseId" = .error (.keyError "caseId") →
      (main aid cc "s" "b" svc).1 = .error (.keyError "caseId")) ∧
    (∀ resp caseId dresp : Json, svc.createCaseResp = .ok resp →
      resp.getKey "caseId" = .ok caseId → pyFalsy caseId = false →
      svc.describeCasesResp = .ok dresp →
      dresp.getKey "cases" = .ok (.arr []) →
      (main aid cc "s" "b" svc).1 = .error .indexError) := by
  have hsubj : template_to_string "s" aid = .ok "s" := rfl
  have hbody : template_to_string "b" aid = .ok "b" := rfl
  refine ⟨?_, ?_, ?_, ?_, ?_⟩
  · intro resp caseId h1 h2 h3
    simp only [main, hsubj, hbody, h1, h2, h3, if_true]
  · intro resp caseId dresp h1 h2 h3 h4 h5
    simp only [main, hsubj, hbody, h1, h2, h3, h4, Bool.false_eq_true,
      if_false, displayIdOutcome, except_bind_error, h5]
    rfl
  · intro resp caseId dresp cs c0 h1 h2 h3 h4 h5 h6 h7
    simp only [main, hsubj, hbody, h1, h2, h3, h4, Bool.false_eq_true,
      if_false, displayIdOutcome, h5, except_bind_ok, h6, h7]
    rfl
  · intro resp h1 h2
    simp only [main, hsubj, hbody, h1, h2]
  · intro resp caseId dresp h1 h2 h3 h4 h5
    simp only [main, hsubj, hbody, h1, h2, h3, h4, Bool.false_eq_true,
      if_false, displayIdOutcome, h5, except_bind_ok, Json.getIdx,
      except_bind_error]
    rfl

/-- C7 witness: the amended claim applied to concrete services exhibiting
each response shape: empty `caseId` value, missing `cases` key, missing
`displayId` key, missing `caseId` key, and empty `cases` list. -/
theorem main_response_validation_witness :
    (main "1" "cc" "s" "b" svcEmptyCaseId).1 =
      .error (.supportCaseError "Missing case_id in create_case() response") ∧
    (main "1" "cc" "s" "b" svcNoCasesKey).1 =
      .error (.supportCaseError "\x27cases\x27") ∧
    (main "1" "cc" "s" "b" svcNoDisplayId).1 =
      .error (.supportCaseError "\x27displayId\x27") ∧
    (main "1" "cc" "s" "b" svcNoCaseIdKey).1 = .error (.keyError "caseId") ∧
    (main "1" "cc" "s" "b" svcEmptyCasesList).1 = .error .indexError :=
  ⟨(main_response_validation "1" "cc" svcEmptyCaseId).1
      (.obj [("caseId", .str "")]) (.str "") rfl rfl rfl,
   (main_response_validation "1" "cc" svcNoCasesKey).2.1
      (.obj [("caseId", .str "case-1")]) (.str "case-1")
      (.obj [("foo", .str "bar")]) rfl rfl rfl rfl rfl,
   (main_response_validation "1" "cc" svcNoDisplayId).2.2.1
      (.obj [("caseId", .str "case-1")]) (.str "case-1")
      (.obj [("cases", .arr [.obj [("status", .str "opened")]])])
      (.arr [.obj [("status", .str "opened")]]) (.obj [("status", .str "opened")])
      rfl rfl rfl rfl rfl rfl rfl,
   (main_response_validation "1" "cc" svcNoCaseIdKey).2.2.2.1
      (.obj [("status", .str "ok")]) rfl rfl,
   (main_response_validation "1" "cc" svcEmptyCasesList).2.2.2.2
      (.obj [("caseId", .str "case-1")]) (.str "case-1")
      (.obj [("cases", .arr [])]) rfl rfl rfl rfl rfl⟩

/-- C8: a missing or empty `CC_LIST`, `SUBJECT` or `COMMUNICATION_BODY`
makes `lambda_handler` fail with `SupportCaseInvalidArgumentsError` (the
class the spec calls `ConfigurationError`) carrying the distinct message that
names the missing variable, with an empty external-call trace — so before any
external service call. -/
theorem handler_missing_envvars (event : Json) (org : List OrgResp)
    (svc : SupportService) (env : LambdaEnv) :
    (nullEnvvar env.cc_list = true →
      lambda_handler event env org svc =
        (.exn (.supportCaseInvalidArgumentsError ccListMsg), [])) ∧
    (nullEnvvar env.cc_list = false → nullEnvvar env.subject = true →
      lambda_handler event env org svc =
        (.exn (.supportCaseInvalidArgumentsError subjectMsg), [])) ∧
    (nullEnvvar env.cc_list = false → nullEnvvar env.subject = false →
      nullEnvvar env.communication_body = true →
      lambda_handler event env org svc =
        (.exn (.supportCaseInvalidArgumentsError communicationBodyMsg), [])) := by
  refine ⟨fun h1 => ?_, fun h1 h2 => ?_, fun h1 h2 h3 => ?_⟩
  · simp only [lambda_handler, check_for_null_envvars, h1, if_true]
  · simp only [lambda_handler, check_for_null_envvars, h1, h2,
      Bool.false_eq_true, if_false, if_true]
  · simp only [lambda_handler, check_for_null_envvars, h1, h2, h3,
      Bool.false_eq_true, if_false, if_true]

/-- C8 witness: each of the three variables missing in turn, on the fixture
event and services. -/
theorem handler_missing_envvars_witness :
    lambda_handler evtInvite ⟨none, some "b", some "s"⟩ [] svcGood =
      (.exn (.supportCaseInvalidArgumentsError ccListMsg), []) ∧
    lambda_handler evtInvite ⟨some "cc", some "b", none⟩ [] svcGood =
      (.exn (.supportCaseInvalidArgumentsError subjectMsg), []) ∧
    lambda_handler evtInvite ⟨some "cc", none, some "s"⟩ [] svcGood =
      (.exn (.supportCaseInvalidArgumentsError communicationBodyMsg), []) :=
  ⟨(handler_missing_envvars evtInvite [] svcGood ⟨none, some "b", some "s"⟩).1 rfl,
   (handler_missing_envvars evtInvite [] svcGood ⟨some "cc", some "b", none⟩).2.1 rfl rfl,
   (handler_missing_envvars evtInvite [] svcGood ⟨some "cc", none, some "s"⟩).2.2 rfl rfl rfl⟩

/-- C9: the Case Opener runs only on a resolved account id: whenever the
resolver does not return an id (it is still pending or it raised — in
particular on a `FAILED` creation), the handler trace contains no
`create_case` request; and a resolver success on an async event means the
polling found a `SUCCEEDED` status, whose embedded id is the one returned. -/
theorem no_case_without_resolution (event : Json) (env : LambdaEnv)
    (org : List OrgResp) (svc : SupportService) :
    (resolutionSucceeded (get_account_id event org).1 = false →
      hasCreateCaseCall (lambda_handler event env org svc).2 = false) ∧
    (∀ j : Json, (pollCreateAccountStatus org).1 = .ok j →
      ∃ (k : Nat) (st : CreateAccountStatus), org[k]? = some (Except.ok st) ∧
        pyUpper st.state = "SUCCEEDED" ∧ j = .str st.accountId) := by
  constructor
  · intro h
    unfold lambda_handler
    split
    · rfl
    · rcases hga : get_account_id event org with ⟨r, tr⟩
      have htr : hasCreateCaseCall tr = false := by
        have := get_account_id_no_createCase event org
        rw [hga] at this
        exact this
      rw [hga] at h
      cases r with
      | ok a => simp [resolutionSucceeded] at h
      | exn e => exact htr
      | pending => exact htr
  · exact fun j h => poll_ok_succeeded org j h

/-- C9 witness: a failed resolution (unrecognized event) issues no
`create_case` request, and a succeeding poll exhibits its `SUCCEEDED`
reply. -/
theorem no_case_without_resolution_witness :
    hasCreateCaseCall
      (lambda_handler evtLegacyResult ⟨some "cc", some "b", some "s"⟩
        [] svcGood).2 = false ∧
    ∃ (k : Nat) (st : CreateAccountStatus),
      ([Except.ok (⟨"SUCCEEDED", "222222222222"⟩ : CreateAccountStatus)] :
        List OrgResp)[k]? = some (Except.ok st) ∧
      pyUpper st.state = "SUCCEEDED" ∧ Json.str "222222222222" = .str st.accountId :=
  ⟨(no_case_without_resolution evtLegacyResult ⟨some "cc", some "b", some "s"⟩
      [] svcGood).1 rfl,
   (no_case_without_resolution evtLegacyResult ⟨some "cc", some "b", some "s"⟩
      [Except.ok ⟨"SUCCEEDED", "222222222222"⟩] svcGood).2
      (.str "222222222222") rfl⟩

/-- C10: every `create_case` request issued by `main` carries
`ccEmailAddresses` equal to the one-element list holding the whole `cc_list`
string — the string is never split on commas. -/
theorem createCase_cc_singleton (aid cc subj body : String) (svc : SupportService)
    (s sev cat sc b : String) (ccs : List String) (lang it : String)
    (h : ExtCall.createCase s sev cat sc b ccs lang it ∈
      (main aid cc subj body svc).2) :
    ccs = [cc] := by
  unfold main at h
  repeat' split at h
  all_goals simp_all

/-- C10 witness: the request issued for the comma-separated cc string
`"cc@x.com,dd@y.com"` carries it whole as a singleton list. -/
theorem createCase_cc_singleton_witness :
    (["cc@x.com,dd@y.com"] : List String) = ["cc@x.com,dd@y.com"] :=
  createCase_cc_singleton "1" "cc@x.com,dd@y.com" "s" "b" svcGood
    "s" "low" "other-account-issues" "customer-account" "b"
    ["cc@x.com,dd@y.com"] "en" "customer-service" (by decide)

end NewAccountSupportCase
